import Mathlib

/-!
# Verification of the Request/Response Bridging & Failover Engine

A shallow embedding, in Lean 4, of the core components of the proxy engine:

* `MessageQueue` (`src/utils/messageQueue.js`) — the per-request correlation
  queue (FIFO buffer plus waiter registrations with timeout removal).
* `AuthSwitcher` (`src/auth/AuthSwitcher.js`, refactored revision) — the
  identity-rotation controller (`switchToNextAuth`,
  `handleRequestFailureAndSwitch`, usage counters).
* `RequestHandler` (`src/core/RequestHandler.js`) — the dispatch engine
  (`_executeRequestWithRetries`, the per-path failure accounting branches,
  and the usage-ceiling scheduling skeleton of `processRequest`).
* `FormatConverter` (`src/handlers/formatConverter.js`) — the protocol
  translator between the chat dialect (OpenAI) and the native dialect
  (Google), including the streaming chunk translation.

JavaScript asynchrony is modelled by explicit state passing: each queue
operation (enqueue, dequeue registration, timeout firing, close) is a pure
state transformer, replies from the remote agent are supplied as oracle
functions, and wall-clock / RNG derived output fields (`id`, `created`) are
outside the model.
-/

namespace AIStudioToAPI

/-! ## String helpers

`containsSub hay pat` models JavaScript `hay.includes(pat)` (substring
containment), used by the failure-accounting branches
(`message.includes("The user aborted a request")`) and to express the
"error message names index i" property of claim C5. -/

/-- Boolean substring test on character lists: `pat` occurs contiguously in
`hay`. -/
def listContainsSub (hay pat : List Char) : Bool :=
  match hay with
  | [] => pat.isEmpty
  | _ :: t => pat.isPrefixOf hay || listContainsSub t pat

/-- JavaScript `hay.includes(pat)`. -/
def strContainsSub (hay pat : String) : Bool :=
  listContainsSub hay.data pat.data

theorem listContainsSub_of_append (a b pat : List Char) :
    listContainsSub b pat = true → listContainsSub (a ++ b) pat = true := by
  intro h
  induction a with
  | nil => simp only [List.nil_append]; exact h
  | cons c t ih =>
      simp only [List.cons_append, listContainsSub, Bool.or_eq_true]
      exact Or.inr ih

theorem isPrefixOf_append_self (l b : List Char) : l.isPrefixOf (l ++ b) = true := by
  induction l with
  | nil => cases b <;> rfl
  | cons c t ih => simp [List.isPrefixOf, ih]

theorem listContainsSub_self_append (pat b : List Char) :
    listContainsSub (pat ++ b) pat = true := by
  cases pat with
  | nil => cases b <;> simp [listContainsSub, List.isPrefixOf]
  | cons c t =>
      simp only [List.cons_append, listContainsSub, Bool.or_eq_true]
      exact Or.inl (isPrefixOf_append_self (c :: t) b)

/-! ## Correlation Queue (`MessageQueue`, `src/utils/messageQueue.js`)

State: `messages` (FIFO frame buffer), `waiters` (pending dequeue
registrations, identified by caller ids, in registration order) and the
`closed` flag.  The four entry points of the class are modelled as pure
state transformers:

* `enqueue` — lines 24-32: dropped when closed; handed to the oldest
  waiter when one is pending; buffered otherwise.
* `dequeueStep` — lines 34-54: throws when closed; resolves immediately
  with the oldest buffered frame; otherwise registers a waiter.
* `timeoutFire` — lines 45-51: the body of the `setTimeout` callback;
  removes the waiter registration (by identity) and rejects the caller,
  but only when the registration is still present.
* `close` — lines 56-64: marks closed, rejects all pending waiters, and
  clears both lists.
-/

/-- State of one `MessageQueue`, generic over the frame type. Waiters are
identified by a caller id (`Nat`), standing for the `resolver` object
identity used by `indexOf`/`splice` in the source. -/
structure QState (α : Type) where
  messages : List α
  waiters : List Nat
  closed : Bool
deriving Repr, DecidableEq

/-- The empty open queue produced by the `MessageQueue` constructor. -/
def QState.init (α : Type) : QState α := ⟨[], [], false⟩

/-- `enqueue(message)`: returns the new state, plus `some (w, f)` when the
frame was handed directly to pending waiter `w`. When closed, the frame is
silently dropped. -/
def enqueue {α : Type} (s : QState α) (f : α) : QState α × Option (Nat × α) :=
  if s.closed then (s, none)
  else
    match s.waiters with
    | w :: rest => ({ s with waiters := rest }, some (w, f))
    | [] => ({ s with messages := s.messages ++ [f] }, none)

/-- Result of the synchronous part of `dequeue`. -/
inductive DequeueOutcome (α : Type) where
  /-- `throw new Error("Queue is closed")` — fails immediately, no waiter
  is registered and no timeout is started. -/
  | closedError : DequeueOutcome α
  /-- A buffered frame was available and is resolved at once. -/
  | value (f : α) : DequeueOutcome α
  /-- No frame was buffered: caller `w` is now registered as a waiter
  (with a timeout pending). -/
  | waiting (w : Nat) : DequeueOutcome α
deriving Repr, DecidableEq

/-- `dequeue(timeoutMs)`, synchronous part, for the caller with fresh id
`w`. -/
def dequeueStep {α : Type} (s : QState α) (w : Nat) : QState α × DequeueOutcome α :=
  if s.closed then (s, .closedError)
  else
    match s.messages with
    | f :: rest => ({ s with messages := rest }, .value f)
    | [] => ({ s with waiters := s.waiters ++ [w] }, .waiting w)

/-- The `setTimeout` callback for waiter `w`: if the registration is still
present it is spliced out and the waiter is rejected with
`Error("Queue timeout")` (the returned Bool tells whether the rejection
happened). -/
def timeoutFire {α : Type} (s : QState α) (w : Nat) : QState α × Bool :=
  if s.waiters.contains w then ({ s with waiters := s.waiters.erase w }, true)
  else (s, false)

/-- `close()`: marks the queue closed, rejects every pending waiter with
`Error("Queue closed")` (returned as the list of rejected waiter ids) and
drops all buffered frames. -/
def close {α : Type} (s : QState α) : QState α × List Nat :=
  ({ messages := [], waiters := [], closed := true }, s.waiters)

/-- Running a whole list of enqueues (no dequeue in between). -/
def enqueueAll {α : Type} (s : QState α) (fs : List α) : QState α :=
  fs.foldl (fun st f => (enqueue st f).1) s

/-- Running `n` successive dequeues with caller ids `ws`, collecting each
caller's outcome in order. -/
def dequeueAll {α : Type} (s : QState α) (ws : List Nat) :
    QState α × List (DequeueOutcome α) :=
  match ws with
  | [] => (s, [])
  | w :: rest =>
      let (s', r) := dequeueStep s w
      let (s'', rs) := dequeueAll s' rest
      (s'', r :: rs)

theorem enqueueAll_no_waiters {α : Type} (fs : List α) (ms : List α) :
    enqueueAll ⟨ms, [], false⟩ fs = ⟨ms ++ fs, [], false⟩ := by
  induction fs generalizing ms with
  | nil => simp [enqueueAll]
  | cons f rest ih =>
      show enqueueAll ((enqueue ⟨ms, [], false⟩ f).1) rest = _
      simp only [enqueue]
      simpa [enqueueAll] using ih (ms ++ [f])

theorem dequeueAll_drains {α : Type} (fs : List α) (ws : List Nat)
    (hlen : ws.length = fs.length) :
    (dequeueAll ⟨fs, [], false⟩ ws).2 = fs.map .value := by
  induction fs generalizing ws with
  | nil => cases ws with
      | nil => simp [dequeueAll]
      | cons w t => simp at hlen
  | cons f rest ih =>
      cases ws with
      | nil => simp at hlen
      | cons w t =>
          simp only [List.length_cons, Nat.succ.injEq] at hlen
          simp only [dequeueAll, dequeueStep, List.map_cons]
          exact congrArg (DequeueOutcome.value f :: ·) (ih t hlen)

/-! ### Claims about the Correlation Queue -/

/-- C7: for every sequence of `n` `enqueue(f1..fn)` calls on a fresh
Correlation Queue (no waiter pending, not closed) followed by `n`
`dequeue()` calls, the `n` dequeues return `f1..fn` in exactly the enqueue
order (FIFO). -/
theorem C7_queue_fifo {α : Type} (fs : List α) (ws : List Nat)
    (hlen : ws.length = fs.length) :
    (dequeueAll (enqueueAll (QState.init α) fs) ws).2
      = fs.map DequeueOutcome.value := by
  show (dequeueAll (enqueueAll ⟨[], [], false⟩ fs) ws).2 = _
  rw [enqueueAll_no_waiters, List.nil_append]
  exact dequeueAll_drains fs ws hlen

/-- Witness for C7 at a concrete three-frame run. -/
theorem C7_queue_fifo_witness :
    ([10, 11, 12] : List Nat).length = (["a", "b", "c"] : List String).length ∧
    (dequeueAll (enqueueAll (QState.init String) ["a", "b", "c"]) [10, 11, 12]).2
      = (["a", "b", "c"] : List String).map DequeueOutcome.value :=
  ⟨rfl, C7_queue_fifo ["a", "b", "c"] [10, 11, 12] rfl⟩

/-- C1 counterexample: caller `0` registers as a waiter, its timeout fires
(the registration is removed), then a late frame is enqueued.  The frame is
buffered and *is* delivered to the next dequeue caller (`1`) — refuting the
claim that a frame enqueued after the timeout "is not delivered to any
future dequeue caller". -/
theorem C1_counterexample :
    (timeoutFire (dequeueStep (QState.init String) 0).1 0).2 = true ∧
    (dequeueStep
      (enqueue (timeoutFire (dequeueStep (QState.init String) 0).1 0).1 "late").1
      1).2 = DequeueOutcome.value "late" := by
  constructor <;> rfl

/-- C1 (amended): a `dequeue` that times out is deregistered, so the
timed-out caller never receives a frame: after `timeoutFire s w`, no
`enqueue` hands a frame to `w`; and a frame enqueued after the timeout
(queue open and empty, no other waiter pending) is buffered and returned to
the next `dequeue` caller, instead of being consumed by the stale waiter
registration. -/
theorem C1_timeout_isolation {α : Type} (s : QState α) (w : Nat) (f : α)
    (hnodup : s.waiters.Nodup) :
    ((enqueue (timeoutFire s w).1 f).2.map Prod.fst ≠ some w) ∧
    ((timeoutFire s w).1.waiters = [] → (timeoutFire s w).1.closed = false →
      (timeoutFire s w).1.messages = [] → ∀ w2 : Nat,
      (dequeueStep (enqueue (timeoutFire s w).1 f).1 w2).2
        = DequeueOutcome.value f) := by
  have hw : w ∉ (timeoutFire s w).1.waiters := by
    unfold timeoutFire
    by_cases h : s.waiters.contains w
    · simp only [h, if_pos]
      exact hnodup.not_mem_erase
    · simp only [h, Bool.false_eq_true, if_neg, not_false_iff]
      intro hmem
      exact h (List.elem_eq_true_of_mem hmem)
  constructor
  · unfold enqueue
    by_cases hc : (timeoutFire s w).1.closed
    · simp [hc]
    · simp only [hc, Bool.false_eq_true, if_neg, not_false_iff]
      cases hws : (timeoutFire s w).1.waiters with
      | nil => simp
      | cons w1 rest =>
          simp only [Option.map_some', ne_eq, Option.some.injEq]
          rintro rfl
          exact hw (hws ▸ List.mem_cons_self w1 rest)
  · intro hws hc hm w2
    simp [enqueue, dequeueStep, hws, hc, hm]

/-- Closed witness for the amended C1 theorem at a concrete state. -/
theorem C1_timeout_isolation_witness :
    (([3] : List Nat).Nodup) ∧
    (((enqueue (timeoutFire (⟨[], [3], false⟩ : QState String) 3).1 "f").2.map
        Prod.fst ≠ some 3) ∧
      ((timeoutFire (⟨[], [3], false⟩ : QState String) 3).1.waiters = [] →
        (timeoutFire (⟨[], [3], false⟩ : QState String) 3).1.closed = false →
        (timeoutFire (⟨[], [3], false⟩ : QState String) 3).1.messages = [] →
        ∀ w2 : Nat,
        (dequeueStep
          (enqueue (timeoutFire (⟨[], [3], false⟩ : QState String) 3).1 "f").1
          w2).2 = DequeueOutcome.value "f")) :=
  ⟨by decide, C1_timeout_isolation (⟨[], [3], false⟩ : QState String) 3 "f"
    (by decide)⟩

/-- C10: once `close()` has been called on a Correlation Queue, every
subsequent `enqueue` leaves the state unchanged and silently drops the
frame, every subsequent `dequeue` fails immediately with the closed-queue
error (no waiter registered, no timeout wait), and a repeated `close()`
leaves the state unchanged and rejects nobody (idempotent). -/
theorem C10_closed_queue {α : Type} (s : QState α) (f : α) (w : Nat) :
    enqueue (close s).1 f = ((close s).1, none) ∧
    dequeueStep (close s).1 w = ((close s).1, .closedError) ∧
    close (close s).1 = ((close s).1, []) := by
  refine ⟨?_, ?_, ?_⟩ <;> simp [close, enqueue, dequeueStep]

/-! ## Identity Rotation Controller (`AuthSwitcher`, `src/auth/AuthSwitcher.js`)

The refactored revision of the class (the one the design document declares
authoritative).  External effects are supplied as oracles:

* `available` — `authSource.availableIndices`;
* `switchOk i` — whether `browserManager.switchAccount(i)` /
  `launchOrSwitchContext(i)` succeeds (`BrowserManager` assigns
  `currentAuthIndex := i` only at the very end of a successful context
  initialization, so a failed attempt leaves the current index unchanged);
* `switchErrMsg i` — the message of the error thrown by a failed context
  initialization for account `i`.
-/

/-- The configuration fields consulted by the controller. -/
structure SwitchConfig where
  failureThreshold : Nat
  immediateSwitchStatusCodes : List Nat
  switchOnUses : Nat
deriving Repr, DecidableEq

/-- Controller state: the failure/usage counters, the `isSystemBusy` gate,
and `browserManager.currentAuthIndex`.  Index `0` is the "no current
account" sentinel used throughout the codebase (`BrowserManager`
initializes it to `0`; `_handleBrowserRecovery` treats `0` as "no current
account"). -/
structure AuthState where
  failureCount : Nat
  usageCount : Nat
  isSystemBusy : Bool
  currentAuthIndex : Nat
deriving Repr, DecidableEq

/-- Result of `switchToNextAuth` (a returned value or a thrown error). -/
inductive SwitchOutcome where
  /-- `throw new Error("No available authentication sources, cannot switch.")`. -/
  | noSources (msg : String)
  /-- `{ reason: "Switch already in progress.", success: false }`. -/
  | alreadySwitching
  /-- A successful switch to `newIndex` (listing the accounts that failed
  before it, and whether it was the final retry of the original account). -/
  | switched (newIndex : Nat) (failedAccounts : List Nat) (finalAttempt : Bool)
  /-- Single-account mode: the browser error is rethrown verbatim. -/
  | singleRestartFailed (msg : String)
  /-- Multi-account mode, total failure: the thrown error message plus the
  `FATAL` log line produced just before the throw. -/
  | fatal (failedAccounts : List Nat) (thrownMsg : String) (logMsg : String)
deriving Repr, DecidableEq

/-- JavaScript `failedAccounts.join(", ")`. -/
def joinComma : List Nat → String
  | [] => ""
  | [i] => toString i
  | i :: j :: rest => toString i ++ ", " ++ joinComma (j :: rest)

/-- The `for (let i = 1; i < available.length; i++)` candidate walk:
the accounts at offsets `1 .. length-1` after `startIndex`, in order. -/
def rotatedCandidates (available : List Nat) (startIndex : Nat) : List Nat :=
  (List.range (available.length - 1)).map
    (fun i => available.getD ((startIndex + i + 1) % available.length) 0)

/-- Trying each candidate in order with `browserManager.switchAccount`:
returns the first success (if any) and the accumulated `failedAccounts`. -/
def tryCandidates (switchOk : Nat → Bool) (cands : List Nat)
    (failed : List Nat) : Option Nat × List Nat :=
  match cands with
  | [] => (none, failed)
  | c :: rest =>
      if switchOk c then (some c, failed)
      else tryCandidates switchOk rest (failed ++ [c])

/-- `AuthSwitcher.switchToNextAuth()` (refactored revision).  The `finally`
clause resets `isSystemBusy` on every exit path, so every returned state
has `isSystemBusy = false` except the early returns taken before the gate
is set. -/
def switchToNextAuth (available : List Nat) (switchOk : Nat → Bool)
    (switchErrMsg : Nat → String) (s : AuthState) : AuthState × SwitchOutcome :=
  if available.isEmpty then
    (s, .noSources "No available authentication sources, cannot switch.")
  else if s.isSystemBusy then
    (s, .alreadySwitching)
  else if available.length == 1 then
    -- Single account mode: in-place restart of the only account.
    let singleIndex := available.getD 0 0
    if switchOk singleIndex then
      ({ failureCount := 0, usageCount := 0, isSystemBusy := false,
         currentAuthIndex := singleIndex }, .switched singleIndex [] false)
    else
      ({ s with isSystemBusy := false },
       .singleRestartFailed (switchErrMsg singleIndex))
  else
    -- Multi-account mode.
    let startIndex :=
      if available.contains s.currentAuthIndex then
        available.indexOf s.currentAuthIndex
      else 0
    let originalStartAccount := available.getD startIndex 0
    match tryCandidates switchOk (rotatedCandidates available startIndex) [] with
    | (some acct, failed) =>
        ({ failureCount := 0, usageCount := 0, isSystemBusy := false,
           currentAuthIndex := acct }, .switched acct failed false)
    | (none, failed) =>
        if switchOk originalStartAccount then
          ({ failureCount := 0, usageCount := 0, isSystemBusy := false,
             currentAuthIndex := originalStartAccount },
           .switched originalStartAccount failed true)
        else
          let failedAll := failed ++ [originalStartAccount]
          ({ s with isSystemBusy := false, currentAuthIndex := 0 },
           .fatal failedAll
             ("All " ++ toString available.length
               ++ " available accounts failed to initialize (including final retry).")
             ("FATAL: All " ++ toString available.length
               ++ " accounts failed! Failed accounts: [" ++ joinComma failedAll ++ "]"))

/-- `AuthSwitcher.handleRequestFailureAndSwitch(errorDetails, cb)`
(refactored revision): increments `failureCount` unconditionally, then
triggers `switchToNextAuth()` when `errorDetails.status` is in the
immediate-switch set or the (enabled) failure threshold is reached.  The
returned Bool records whether `switchToNextAuth()` was invoked.  A thrown
switch error is caught; the only catch branch that mutates state resets
`failureCount` when the message contains "Only one account is available". -/
def handleRequestFailureAndSwitch (cfg : SwitchConfig) (available : List Nat)
    (switchOk : Nat → Bool) (switchErrMsg : Nat → String) (errStatus : Nat)
    (s : AuthState) : AuthState × Bool :=
  let s1 := { s with failureCount := s.failureCount + 1 }
  let isImmediateSwitch := cfg.immediateSwitchStatusCodes.contains errStatus
  let isThresholdReached :=
    decide (0 < cfg.failureThreshold)
      && decide (cfg.failureThreshold ≤ s1.failureCount)
  if isImmediateSwitch || isThresholdReached then
    let res := switchToNextAuth available switchOk switchErrMsg s1
    match res.2 with
    | .noSources msg | .singleRestartFailed msg | .fatal _ msg _ =>
        (if strContainsSub msg "Only one account is available" then
          { res.1 with failureCount := 0 }
         else res.1, true)
    | _ => (res.1, true)
  else (s1, false)

/-! ### Per-path failure accounting (`RequestHandler`, `src/core/RequestHandler.js`)

The five dispatch paths reach the Identity Rotation Controller through
different error branches.  The three native-dialect paths test the error
message for `"The user aborted a request"` before calling
`handleRequestFailureAndSwitch`; the two chat-dialect (OpenAI) paths call
it unconditionally. -/

/-- `_handlePseudoStreamResponse`, failure branch (native pseudo-stream):
`result.error.message?.includes("The user aborted a request")` skips the
failure accounting. -/
def pseudoStreamFailureAccounting (cfg : SwitchConfig) (available : List Nat)
    (switchOk : Nat → Bool) (switchErrMsg : Nat → String)
    (errStatus : Nat) (errMsg : String) (s : AuthState) : AuthState :=
  if strContainsSub errMsg "The user aborted a request" then s
  else (handleRequestFailureAndSwitch cfg available switchOk switchErrMsg
    errStatus s).1

/-- `_handleRealStreamResponse`, header-frame error branch (native real
stream): same aborted-message guard before the failure accounting. -/
def realStreamFailureAccounting (cfg : SwitchConfig) (available : List Nat)
    (switchOk : Nat → Bool) (switchErrMsg : Nat → String)
    (errStatus : Nat) (errMsg : String) (s : AuthState) : AuthState :=
  if strContainsSub errMsg "The user aborted a request" then s
  else (handleRequestFailureAndSwitch cfg available switchOk switchErrMsg
    errStatus s).1

/-- `_handleNonStreamResponse`, failure branch (native non-stream): same
aborted-message guard before the failure accounting. -/
def nonStreamFailureAccounting (cfg : SwitchConfig) (available : List Nat)
    (switchOk : Nat → Bool) (switchErrMsg : Nat → String)
    (errStatus : Nat) (errMsg : String) (s : AuthState) : AuthState :=
  if strContainsSub errMsg "The user aborted a request" then s
  else (handleRequestFailureAndSwitch cfg available switchOk switchErrMsg
    errStatus s).1

/-- `processOpenAIRequest`, real-stream branch: on an `error` first frame
it calls `handleRequestFailureAndSwitch(initialMessage, null)` with no
aborted-message guard. -/
def openAIRealStreamFailureAccounting (cfg : SwitchConfig)
    (available : List Nat) (switchOk : Nat → Bool)
    (switchErrMsg : Nat → String) (errStatus : Nat) (_errMsg : String)
    (s : AuthState) : AuthState :=
  (handleRequestFailureAndSwitch cfg available switchOk switchErrMsg
    errStatus s).1

/-- `processOpenAIRequest`, buffered (non-stream / fake-stream) branch: on
a failed `_executeRequestWithRetries` it calls
`handleRequestFailureAndSwitch(result.error, null)` with no
aborted-message guard. -/
def openAIBufferedFailureAccounting (cfg : SwitchConfig)
    (available : List Nat) (switchOk : Nat → Bool)
    (switchErrMsg : Nat → String) (errStatus : Nat) (_errMsg : String)
    (s : AuthState) : AuthState :=
  (handleRequestFailureAndSwitch cfg available switchOk switchErrMsg
    errStatus s).1

/-! ### Claims about the Identity Rotation Controller -/

/-- C4: a recorded failure whose status is in the configured
`immediateSwitchStatusCodes` triggers `switchToNextAuth()` immediately —
no constraint on `failureCount` versus `failureThreshold` is needed. -/
theorem C4_immediate_switch (cfg : SwitchConfig) (available : List Nat)
    (switchOk : Nat → Bool) (switchErrMsg : Nat → String) (status : Nat)
    (s : AuthState)
    (him : cfg.immediateSwitchStatusCodes.contains status = true) :
    (handleRequestFailureAndSwitch cfg available switchOk switchErrMsg
      status s).2 = true := by
  unfold handleRequestFailureAndSwitch
  simp only [him, Bool.true_or, if_pos]
  cases h : (switchToNextAuth available switchOk switchErrMsg
      { s with failureCount := s.failureCount + 1 }).2 <;>
    simp [h]

/-- Witness for C4: a single `AgentError{status:429}` with
`immediateSwitchStatusCodes = [429]` and `failureThreshold = 5`, starting
from `failureCount = 0` (so the threshold `5` is *not* reached: the one
new failure only brings the count to `1`). -/
theorem C4_immediate_switch_witness :
    (([429] : List Nat).contains 429 = true) ∧ (0 + 1 < 5) ∧
    (handleRequestFailureAndSwitch ⟨5, [429], 0⟩ [1, 2] (fun _ => true)
      (fun _ => "ctx") 429 ⟨0, 0, false, 1⟩).2 = true :=
  ⟨rfl, by decide,
    C4_immediate_switch ⟨5, [429], 0⟩ [1, 2] (fun _ => true) (fun _ => "ctx")
      429 ⟨0, 0, false, 1⟩ rfl⟩

/-- C3 counterexample: on the chat-dialect real-stream path, an agent-side
"aborted" error (`status` 504, message
`"Proxy browser error: The user aborted a request."`) *is* counted:
`failureCount` rises from 0 to 1 (config: `failureThreshold = 0`, empty
immediate-switch set, so no switch interferes). -/
theorem C3_counterexample :
    (openAIRealStreamFailureAccounting ⟨0, [], 0⟩ [1, 2] (fun _ => false)
      (fun _ => "ctx") 504 "Proxy browser error: The user aborted a request."
      ⟨0, 0, false, 1⟩).failureCount
      ≠ (⟨0, 0, false, 1⟩ : AuthState).failureCount := by
  decide

/-- C3 (amended): on the three native-dialect paths (non-stream,
pseudo-stream, real-stream) an error whose message reports the
client-initiated abort leaves the controller state — in particular
`failureCount` — unchanged; the two chat-dialect paths lack the guard and
do count it. -/
theorem C3_native_cancellation_excluded (cfg : SwitchConfig)
    (available : List Nat) (switchOk : Nat → Bool)
    (switchErrMsg : Nat → String) (errStatus : Nat) (errMsg : String)
    (s : AuthState)
    (habort : strContainsSub errMsg "The user aborted a request" = true) :
    pseudoStreamFailureAccounting cfg available switchOk switchErrMsg
      errStatus errMsg s = s ∧
    realStreamFailureAccounting cfg available switchOk switchErrMsg
      errStatus errMsg s = s ∧
    nonStreamFailureAccounting cfg available switchOk switchErrMsg
      errStatus errMsg s = s := by
  refine ⟨?_, ?_, ?_⟩ <;>
    simp [pseudoStreamFailureAccounting, realStreamFailureAccounting,
      nonStreamFailureAccounting, habort]

/-- Closed witness for the amended C3 theorem at the concrete abort
message the agent actually sends. -/
theorem C3_native_cancellation_excluded_witness :
    (strContainsSub "Proxy browser error: The user aborted a request."
      "The user aborted a request" = true) ∧
    (pseudoStreamFailureAccounting ⟨3, [429], 0⟩ [1, 2] (fun _ => false)
      (fun _ => "ctx") 504 "Proxy browser error: The user aborted a request."
      ⟨2, 5, false, 1⟩ = ⟨2, 5, false, 1⟩ ∧
    realStreamFailureAccounting ⟨3, [429], 0⟩ [1, 2] (fun _ => false)
      (fun _ => "ctx") 504 "Proxy browser error: The user aborted a request."
      ⟨2, 5, false, 1⟩ = ⟨2, 5, false, 1⟩ ∧
    nonStreamFailureAccounting ⟨3, [429], 0⟩ [1, 2] (fun _ => false)
      (fun _ => "ctx") 504 "Proxy browser error: The user aborted a request."
      ⟨2, 5, false, 1⟩ = ⟨2, 5, false, 1⟩) :=
  ⟨by decide,
    C3_native_cancellation_excluded ⟨3, [429], 0⟩ [1, 2] (fun _ => false)
      (fun _ => "ctx") 504 "Proxy browser error: The user aborted a request."
      ⟨2, 5, false, 1⟩ (by decide)⟩

/-! ### C5: total failure of `switchToNextAuth` -/

theorem isPrefixOf_append_mono (pat a b : List Char)
    (h : pat.isPrefixOf a = true) : pat.isPrefixOf (a ++ b) = true := by
  induction pat generalizing a with
  | nil => cases a ++ b <;> rfl
  | cons p ps ih =>
      cases a with
      | nil => simp [List.isPrefixOf] at h
      | cons x xs =>
          simp only [List.isPrefixOf, Bool.and_eq_true] at h ⊢
          exact ⟨h.1, ih xs h.2⟩

theorem listContainsSub_nil_pat (hay : List Char) :
    listContainsSub hay [] = true := by
  cases hay <;> simp [listContainsSub, List.isPrefixOf]

theorem listContainsSub_append_left (a b pat : List Char)
    (h : listContainsSub a pat = true) :
    listContainsSub (a ++ b) pat = true := by
  induction a with
  | nil =>
      simp only [listContainsSub, List.isEmpty_iff] at h
      subst h
      exact listContainsSub_nil_pat b
  | cons c t ih =>
      simp only [listContainsSub, Bool.or_eq_true] at h
      rcases h with h | h
      · simp only [List.cons_append, listContainsSub, Bool.or_eq_true]
        exact Or.inl (isPrefixOf_append_mono pat (c :: t) b h)
      · simp only [List.cons_append, listContainsSub, Bool.or_eq_true]
        exact Or.inr (ih h)

theorem listContainsSub_refl (pat : List Char) :
    listContainsSub pat pat = true := by
  have := listContainsSub_self_append pat []
  simpa using this

theorem joinComma_contains (i : Nat) (l : List Nat) (hmem : i ∈ l) :
    listContainsSub (joinComma l).data (toString i).data = true := by
  induction l with
  | nil => cases hmem
  | cons a rest ih =>
      cases rest with
      | nil =>
          have hia : i = a := by simpa using hmem
          subst hia
          exact listContainsSub_refl _
      | cons b bs =>
          rcases List.mem_cons.mp hmem with h | h
          · subst h
            show listContainsSub
              (toString i ++ ", " ++ joinComma (b :: bs)).data
              (toString i).data = true
            rw [String.data_append, String.data_append, List.append_assoc]
            exact listContainsSub_self_append _ _
          · have hrest := ih h
            show listContainsSub
              (toString a ++ ", " ++ joinComma (b :: bs)).data
              (toString i).data = true
            rw [String.data_append]
            exact listContainsSub_of_append _ _ _ hrest

theorem tryCandidates_all_fail (switchOk : Nat → Bool) (cands acc : List Nat)
    (h : ∀ c ∈ cands, switchOk c = false) :
    tryCandidates switchOk cands acc = (none, acc ++ cands) := by
  induction cands generalizing acc with
  | nil => simp [tryCandidates]
  | cons c rest ih =>
      have hc := h c (List.mem_cons_self c rest)
      simp only [tryCandidates, hc, Bool.false_eq_true, if_neg, not_false_iff]
      rw [ih (acc ++ [c]) (fun d hd => h d (List.mem_cons_of_mem c hd))]
      simp

theorem rotatedCandidates_mem (l : List Nat) (st : Nat) (hpos : 0 < l.length)
    (c : Nat) (hc : c ∈ rotatedCandidates l st) : c ∈ l := by
  unfold rotatedCandidates at hc
  rw [List.mem_map] at hc
  obtain ⟨k, _, hk⟩ := hc
  have hlt : (st + k + 1) % l.length < l.length := Nat.mod_lt _ hpos
  rw [List.getD_eq_getElem l 0 hlt] at hk
  exact hk ▸ List.getElem_mem hlt

theorem rotation_covers (l : List Nat) (st : Nat) (hst : st < l.length)
    (x : Nat) (hx : x ∈ l) :
    x ∈ rotatedCandidates l st ++ [l.getD st 0] := by
  rw [List.mem_append]
  obtain ⟨j, hj, hget⟩ := List.mem_iff_getElem.mp hx
  by_cases hjs : j = st
  · right
    subst hjs
    rw [List.getD_eq_getElem l 0 hj, hget]
    exact List.mem_singleton.mpr rfl
  · left
    unfold rotatedCandidates
    rw [List.mem_map]
    refine ⟨if st < j then j - st - 1 else l.length + j - st - 1, ?_, ?_⟩
    · rw [List.mem_range]
      split <;> omega
    · have hmod : (st + (if st < j then j - st - 1 else l.length + j - st - 1)
          + 1) % l.length = j := by
        split
        · have he : st + (j - st - 1) + 1 = j := by omega
          rw [he, Nat.mod_eq_of_lt hj]
        · have he : st + (l.length + j - st - 1) + 1 = l.length + j := by omega
          rw [he, Nat.add_mod_left, Nat.mod_eq_of_lt (by omega : j < l.length)]
      rw [hmod, List.getD_eq_getElem l 0 hj, hget]

/-- C5 counterexample: pool `[1, 3]`, current identity `1`, every context
switch fails.  `switchToNextAuth` does throw a fatal error — but its
message, `"All 2 available accounts failed to initialize (including final
retry)."`, names *neither* failed candidate index (the indices appear only
in the `FATAL` log line), refuting "a fatal error whose message names
every failed candidate index".  The current index becomes the sentinel 0. -/
theorem C5_counterexample :
    switchToNextAuth [1, 3] (fun _ => false) (fun _ => "ctx")
      ⟨0, 0, false, 1⟩
      = (⟨0, 0, false, 0⟩,
        .fatal [3, 1]
          "All 2 available accounts failed to initialize (including final retry)."
          "FATAL: All 2 accounts failed! Failed accounts: [3, 1]") ∧
    strContainsSub
      "All 2 available accounts failed to initialize (including final retry)."
      "3" = false ∧
    strContainsSub
      "All 2 available accounts failed to initialize (including final retry)."
      "1" = false := by
  refine ⟨?_, ?_, ?_⟩ <;> decide

/-- C5 (amended): in a multi-identity pool where every candidate fails and
the final retry of the original current identity also fails,
`switchToNextAuth()` raises a fatal error; the thrown message reports only
the total account count (`"All n available accounts failed to initialize
(including final retry)."`), while the `FATAL` log line emitted just
before the throw names every failed candidate index; the counters are
unchanged and the current identity is set to `0`, the codebase's "no
current account" sentinel. -/
theorem C5_total_switch_failure (available : List Nat) (switchOk : Nat → Bool)
    (switchErrMsg : Nat → String) (s : AuthState)
    (hlen : 2 ≤ available.length)
    (hfail : ∀ i ∈ available, switchOk i = false)
    (hbusy : s.isSystemBusy = false) :
    ∃ failedAll logMsg,
      switchToNextAuth available switchOk switchErrMsg s
        = (⟨s.failureCount, s.usageCount, false, 0⟩,
          .fatal failedAll
            ("All " ++ toString available.length
              ++ " available accounts failed to initialize (including final retry).")
            logMsg) ∧
      (∀ i ∈ available, i ∈ failedAll) ∧
      (∀ i ∈ failedAll, strContainsSub logMsg (toString i) = true) := by
  have hpos : 0 < available.length := by omega
  have hne : available.isEmpty = false := by
    cases available with
    | nil => simp at hlen
    | cons a t => rfl
  have h1 : (available.length == 1) = false := by
    simp only [beq_eq_false_iff_ne, ne_eq]
    omega
  set st := if available.contains s.currentAuthIndex then
      available.indexOf s.currentAuthIndex
    else 0 with hst_def
  have hstlt : st < available.length := by
    rw [hst_def]
    split
    · exact List.indexOf_lt_length.2 (List.mem_of_elem_eq_true (by assumption))
    · omega
  have horig_mem : available.getD st 0 ∈ available := by
    rw [List.getD_eq_getElem available 0 hstlt]
    exact List.getElem_mem hstlt
  have hallrot : ∀ c ∈ rotatedCandidates available st, switchOk c = false :=
    fun c hc => hfail c (rotatedCandidates_mem available st hpos c hc)
  have htry := tryCandidates_all_fail switchOk (rotatedCandidates available st)
    [] hallrot
  have horig : switchOk (available.getD st 0) = false := hfail _ horig_mem
  refine ⟨rotatedCandidates available st ++ [available.getD st 0],
    "FATAL: All " ++ toString available.length
      ++ " accounts failed! Failed accounts: ["
      ++ joinComma (rotatedCandidates available st ++ [available.getD st 0])
      ++ "]", ?_, ?_, ?_⟩
  · unfold switchToNextAuth
    rw [hne, hbusy, h1]
    simp only [Bool.false_eq_true, if_neg, not_false_iff, ← hst_def]
    rw [htry]
    simp only [List.nil_append, horig, Bool.false_eq_true, if_neg,
      not_false_iff]
  · exact fun i hi => rotation_covers available st hstlt i hi
  · intro i hi
    have hjoin := joinComma_contains i _ hi
    unfold strContainsSub
    rw [String.data_append, String.data_append, List.append_assoc]
    apply listContainsSub_of_append
    exact listContainsSub_append_left _ _ _ hjoin

/-- Closed witness for the amended C5 theorem: pool `[1, 3]`, all context
switches failing. -/
theorem C5_total_switch_failure_witness :
    (2 ≤ ([1, 3] : List Nat).length) ∧
    (∀ i ∈ ([1, 3] : List Nat), (fun _ : Nat => false) i = false) ∧
    ((⟨0, 0, false, 1⟩ : AuthState).isSystemBusy = false) ∧
    (∃ failedAll logMsg,
      switchToNextAuth [1, 3] (fun _ => false) (fun _ => "ctx")
        ⟨0, 0, false, 1⟩
        = (⟨0, 0, false, 0⟩,
          .fatal failedAll
            ("All " ++ toString ([1, 3] : List Nat).length
              ++ " available accounts failed to initialize (including final retry).")
            logMsg) ∧
      (∀ i ∈ ([1, 3] : List Nat), i ∈ failedAll) ∧
      (∀ i ∈ failedAll, strContainsSub logMsg (toString i) = true)) :=
  ⟨by decide, by decide, rfl,
    C5_total_switch_failure [1, 3] (fun _ => false) (fun _ => "ctx")
      ⟨0, 0, false, 1⟩ (by decide) (by decide) rfl⟩

/-! ## Dispatch Engine (`RequestHandler`, `src/core/RequestHandler.js`)

### `_executeRequestWithRetries` (lines 1207-1264 of the concatenated file)

Each attempt forwards the wire request (`_forwardRequest`, which throws
`"Unable to forward request: No available WebSocket connection."` when no
channel is active) and dequeues the first frame.  A frame with
`event_type: "timeout"` is converted into a structured 504 error, an
`error` frame is rethrown as its own JSON; any other thrown message that
fails to parse as JSON becomes `{message, status: 500}` (this covers both
the no-connection throw and the queue's own `"Queue timeout"` rejection).
After `maxRetries` failed attempts the last parsed error payload is
returned verbatim in `{error: lastError, success: false}` (with
`lastError = null` when the loop never ran). -/

/-- Agent wire frames (`agent → engine` envelopes, minus the request id
which the Connection Registry has already used for routing). -/
inductive Frame where
  | headers (status : Nat) (hdrs : List (String × String))
  | chunk (data : String)
  | streamEnd
  | error (status : Nat) (message : String)
  | timeout
deriving Repr, DecidableEq

/-- The structured error payload produced by the catch block
(`JSON.parse` of the thrown message, or the `{message, status: 500}`
fallback). -/
structure ErrPayload where
  status : Nat
  message : String
deriving Repr, DecidableEq

/-- What one `messageQueue.dequeue()` call delivers to an attempt. -/
inductive DequeueReply where
  /-- A frame arrived. -/
  | frame (f : Frame)
  /-- The dequeue itself rejected with `Error("Queue timeout")`. -/
  | queueTimeout
deriving Repr, DecidableEq

/-- Outcome of a single attempt of the retry loop body. -/
inductive AttemptResult where
  | ok (frame : Frame)
  | err (payload : ErrPayload)
deriving Repr, DecidableEq

/-- One iteration of the `for` loop of `_executeRequestWithRetries`:
forward (throws when no connection), dequeue, classify. -/
def attemptOnce (connected : Bool) (r : DequeueReply) : AttemptResult :=
  if connected = false then
    .err ⟨500, "Unable to forward request: No available WebSocket connection."⟩
  else
    match r with
    | .queueTimeout => .err ⟨500, "Queue timeout"⟩
    | .frame .timeout =>
        .err ⟨504, "Request timed out waiting for browser response."⟩
    | .frame (.error st m) => .err ⟨st, m⟩
    | .frame f => .ok f

/-- Result of the whole retry loop. -/
inductive ExecResult where
  | ok (frame : Frame)
  | fail (lastError : Option ErrPayload)
deriving Repr, DecidableEq

/-- The retry loop from attempt number `attempt` with `fuel` attempts
remaining; returns the number of times the wire request was actually
forwarded, paired with the final result. -/
def execFrom (connected : Bool) (reply : Nat → DequeueReply)
    (attempt fuel : Nat) (lastErr : Option ErrPayload) : Nat × ExecResult :=
  match fuel with
  | 0 => (0, .fail lastErr)
  | fuel' + 1 =>
      let fwd := if connected then 1 else 0
      match attemptOnce connected (reply attempt) with
      | .ok f => (fwd, .ok f)
      | .err e =>
          let rest := execFrom connected reply (attempt + 1) fuel' (some e)
          (fwd + rest.1, rest.2)

/-- `_executeRequestWithRetries(proxyRequest, messageQueue)`: attempts are
numbered `1 .. maxRetries`; `reply i` is the first frame the queue
delivers during attempt `i`. -/
def executeRequestWithRetries (connected : Bool)
    (reply : Nat → DequeueReply) (maxRetries : Nat) : Nat × ExecResult :=
  execFrom connected reply 1 maxRetries none

/-- The error payload a reply parses to when it is an `error` frame. -/
def replyErrPayload : DequeueReply → Option ErrPayload
  | .frame (.error st m) => some ⟨st, m⟩
  | _ => none

/-- C2: with `maxRetries = 3`, an active connection and an agent whose
first frame is always an `error`, the wire request is forwarded exactly 3
times and the final result is the failure carrying the error of the 3rd
attempt, verbatim. -/
theorem C2_retry_bound (reply : Nat → DequeueReply)
    (herr : ∀ i, ∃ st m, reply i = .frame (.error st m)) :
    executeRequestWithRetries true reply 3
      = (3, .fail (replyErrPayload (reply 3))) := by
  obtain ⟨s1, m1, h1⟩ := herr 1
  obtain ⟨s2, m2, h2⟩ := herr 2
  obtain ⟨s3, m3, h3⟩ := herr 3
  simp [executeRequestWithRetries, execFrom, attemptOnce, h1, h2, h3,
    replyErrPayload]

/-- Witness for C2: the agent errors on every attempt with a
distinguishable status; the result is the 3rd attempt's error. -/
theorem C2_retry_bound_witness :
    (∀ i, ∃ st m,
      (fun j => DequeueReply.frame (.error (400 + j) "agent failure")) i
        = .frame (.error st m)) ∧
    executeRequestWithRetries true
      (fun j => DequeueReply.frame (.error (400 + j) "agent failure")) 3
      = (3, .fail (some ⟨403, "agent failure"⟩)) :=
  ⟨fun i => ⟨400 + i, "agent failure", rfl⟩,
    C2_retry_bound (fun j => DequeueReply.frame (.error (400 + j) "agent failure"))
      (fun i => ⟨400 + i, "agent failure", rfl⟩)⟩

/-! ### `processRequest` usage-ceiling skeleton (lines 629-713)

The control skeleton of `RequestHandler.processRequest` relevant to the
usage ceiling: connection check, busy rejection, usage accounting
(`incrementUsageCount` / `shouldSwitchByUsage` setting
`needsSwitchingAfterRequest`), the dispatch body producing the HTTP
response, and the `finally` block that schedules the background
`switchToNextAuth()` strictly after the response.  The dispatch body is
abstracted as an opaque response value `body : ρ` — the source never
consults `needsSwitchingAfterRequest` or `usageCount` inside the body, so
the produced response is the same with or without the ceiling. -/

/-- Events observable, in order, during one `processRequest` call. -/
inductive DispatchEvt (ρ : Type) where
  /-- No active agent connection: `_handleBrowserRecovery` runs (its
  internals are outside this claim's scope). -/
  | recoveryPath
  /-- `isSystemBusy`: rejected with the 503 maintenance error. -/
  | rejected503
  /-- The dispatch body ran and the HTTP response was sent. -/
  | responded (r : ρ)
  /-- The `finally` block scheduled the background `switchToNextAuth()`. -/
  | scheduledSwitch
deriving Repr, DecidableEq

/-- Control skeleton of `RequestHandler.processRequest`: returns the final
`(usageCount, needsSwitchingAfterRequest)` pair and the ordered event
trace. -/
def processRequestSkeleton {ρ : Type} (cfg : SwitchConfig)
    (connected busy needsSwitch0 isGenerative : Bool)
    (usageCount0 : Nat) (body : ρ) : (Nat × Bool) × List (DispatchEvt ρ) :=
  if connected = false then ((usageCount0, needsSwitch0), [.recoveryPath])
  else if busy then ((usageCount0, needsSwitch0), [.rejected503])
  else
    let usageCount1 := if isGenerative then usageCount0 + 1 else usageCount0
    let needsSwitch1 :=
      if isGenerative && decide (0 < cfg.switchOnUses)
          && decide (cfg.switchOnUses ≤ usageCount1) then true
      else needsSwitch0
    if needsSwitch1 then
      ((usageCount1, false), [.responded body, .scheduledSwitch])
    else
      ((usageCount1, needsSwitch1), [.responded body])

/-- C6: with `switchOnUses = 2`, the 2nd generative call (one prior use
recorded, system idle, connection up) is processed to completion — the
`responded` event carries the same `body` value as a run with the ceiling
disabled, so the in-flight response is unaffected — and `scheduledSwitch`
appears in the trace strictly after `responded`, never before it. -/
theorem C6_usage_ceiling_scheduling {ρ : Type} (cfg : SwitchConfig)
    (body : ρ) (h2 : cfg.switchOnUses = 2) :
    processRequestSkeleton cfg true false false true 1 body
      = ((2, false), [.responded body, .scheduledSwitch]) ∧
    processRequestSkeleton { cfg with switchOnUses := 0 } true false false
      true 1 body = ((2, false), [.responded body]) := by
  constructor <;> simp [processRequestSkeleton, h2]

/-- Witness for C6 at a concrete configuration and response value. -/
theorem C6_usage_ceiling_scheduling_witness :
    ((⟨3, [429], 2⟩ : SwitchConfig).switchOnUses = 2) ∧
    (processRequestSkeleton (⟨3, [429], 2⟩ : SwitchConfig) true false false
        true 1 "resp"
      = ((2, false), [.responded "resp", .scheduledSwitch]) ∧
    processRequestSkeleton ({ (⟨3, [429], 2⟩ : SwitchConfig) with
        switchOnUses := 0 }) true false false true 1 "resp"
      = ((2, false), [.responded "resp"])) :=
  ⟨rfl, C6_usage_ceiling_scheduling (⟨3, [429], 2⟩ : SwitchConfig) "resp" rfl⟩

/-! ## Protocol Translator (`FormatConverter`, `src/handlers/formatConverter.js`)

The translator is modelled at the parsed-JSON level: request/response
bodies are structures, `undefined`/absent fields are `Option`, JavaScript
truthiness of strings (`""` and `undefined` are falsy) is `truthyStr`.
The raw-chunk preprocessing of `translateGoogleToOpenAIStream` (stripping
a `"data: "` prefix, ignoring `"[DONE]"` and unparseable JSON) happens
before a *frame* exists and is outside this model, which starts from the
parsed `googleResponse`.  The `id`/`created`/`model`/`object` fields of
the emitted chat objects come from the clock/RNG and are likewise outside
the model. -/

/-- JavaScript truthiness of a possibly-absent string. -/
def truthyStr : Option String → Bool
  | none => false
  | some s => !(s == "")

/-- One element of a chat-dialect message's array content. -/
inductive OAIPart where
  /-- `{type: "text", text}`. -/
  | text (t : String)
  /-- `{type: "image_url", image_url: {url}}`. -/
  | imageUrl (url : String)
  /-- `{type: "image_url"}` with a falsy `image_url` (skipped). -/
  | imageUrlMissing
  /-- any other `type` (skipped). -/
  | other
deriving Repr, DecidableEq

/-- Chat-dialect message content: a plain string or an array of parts. -/
inductive OAIContent where
  | str (s : String)
  | parts (ps : List OAIPart)
deriving Repr, DecidableEq

structure OAIMessage where
  role : String
  content : OAIContent
deriving Repr, DecidableEq

/-- A raw `thinking_config`/`thinkingConfig` object from the client. -/
structure ThinkingRaw where
  include_thoughts : Option Bool := none
  includeThoughts : Option Bool := none
deriving Repr, DecidableEq

structure ExtraGoogle where
  thinking_config : Option ThinkingRaw := none
  thinkingConfig : Option ThinkingRaw := none
deriving Repr, DecidableEq

structure ExtraBody where
  google : Option ExtraGoogle := none
  thinkingConfig : Option ThinkingRaw := none
  thinking_config : Option ThinkingRaw := none
  reasoning_effort : Option String := none
deriving Repr, DecidableEq

/-- The chat-dialect (OpenAI) request body, over an abstract JSON-value
type `ν` for the sampling parameters that are copied through 1:1. -/
structure OAIBody (ν : Type) where
  messages : List OAIMessage
  max_tokens : Option ν := none
  stop : Option ν := none
  temperature : Option ν := none
  top_k : Option ν := none
  top_p : Option ν := none
  extra_body : Option ExtraBody := none
  thinkingConfig : Option ThinkingRaw := none
  thinking_config : Option ThinkingRaw := none
  reasoning_effort : Option String := none
deriving Repr, DecidableEq

structure InlineData where
  mimeType : String
  data : String
deriving Repr, DecidableEq

/-- A native-dialect part: `{thought?, text?, inlineData?}` (`thought` is
compared with `=== true` in the source, so absent means `false`). -/
structure GPart where
  thought : Bool := false
  text : Option String := none
  inlineData : Option InlineData := none
deriving Repr, DecidableEq

structure GContent where
  parts : List GPart
  role : String
deriving Repr, DecidableEq

/-- `generationConfig`.  The resolved `thinkingConfig` is
`some includeThoughts?` when the key is present. -/
structure GenerationConfig (ν : Type) where
  maxOutputTokens : Option ν
  stopSequences : Option ν
  temperature : Option ν
  topK : Option ν
  topP : Option ν
  thinkingConfig : Option (Option Bool)
deriving Repr, DecidableEq

inductive GTool where
  | googleSearch
  | urlContext
deriving Repr, DecidableEq

structure SafetySetting where
  category : String
  threshold : String
deriving Repr, DecidableEq

/-- The native-dialect request produced by `translateOpenAIToGoogle`. -/
structure GoogleRequest (ν : Type) where
  contents : List GContent
  systemInstruction : Option (List GPart)
  generationConfig : GenerationConfig ν
  tools : Option (List GTool)
  safetySettings : List SafetySetting
deriving Repr, DecidableEq

/-- The `serverSystem` feature flags consulted by the translator. -/
structure ServerFlags where
  forceThinking : Bool
  forceWebSearch : Bool
  forceUrlContext : Bool
deriving Repr, DecidableEq

/-- The characters of the literal `";base64,"` separator. -/
def sepB64 : List Char := [';', 'b', 'a', 's', 'e', '6', '4', ',']

/-- Splits at the *first* occurrence of `";base64,"` (the lazy `.*?` of
the regex `^data:(image\/.*?);base64,(.*)$`). -/
def findBase64Split : List Char → Option (List Char × List Char)
  | [] => none
  | c :: rest =>
      if sepB64.isPrefixOf (c :: rest) then some ([], (c :: rest).drop 8)
      else
        match findBase64Split rest with
        | some (pre, post) => some (c :: pre, post)
        | none => none

/-- `dataUrl.match(/^data:(image\/.*?);base64,(.*)$/)`: the groups
`(mime, data)` when the URL matches.  JavaScript `.` does not match a
newline, hence the newline-freedom checks on both groups. -/
def parseImageDataUrl (url : String) : Option (String × String) :=
  let cs := url.data
  if ("data:image/".data).isPrefixOf cs then
    match findBase64Split (cs.drop 11) with
    | some (pre, post) =>
        if pre.all (fun ch => !(ch == '\n'))
            && post.all (fun ch => !(ch == '\n')) then
          some (⟨"image/".data ++ pre⟩, ⟨post⟩)
        else none
    | none => none
  else none

/-- Converting one chat-dialect content part to a native part (the loop
body of `translateOpenAIToGoogle`); unmatched parts contribute nothing. -/
def oaiPartToGPart : OAIPart → Option GPart
  | .text t => some ⟨false, some t, none⟩
  | .imageUrl url =>
      match parseImageDataUrl url with
      | some (mime, data) => some ⟨false, none, some ⟨mime, data⟩⟩
      | none => none
  | .imageUrlMissing => none
  | .other => none

/-- Native parts built from one message's content. -/
def oaiContentToParts : OAIContent → List GPart
  | .str s => [⟨false, some s, none⟩]
  | .parts ps => ps.filterMap oaiPartToGPart

/-- JavaScript stringification used by
`systemMessages.map(msg => msg.content).join("\n")`: a string stays
itself, an array of part objects becomes `"[object Object]"` joined by
commas. -/
def jsStringOfContent : OAIContent → String
  | .str s => s
  | .parts ps => String.intercalate "," (ps.map (fun _ => "[object Object]"))

/-- The resolved `thinkingConfig` object built from a raw client config:
`include_thoughts` wins over `includeThoughts` when defined. -/
def resolveThinking (raw : ThinkingRaw) : Option Bool :=
  match raw.include_thoughts with
  | some b => some b
  | none => raw.includeThoughts

/-- `FormatConverter.translateOpenAIToGoogle(openaiBody)` (the spec's
`toNativeRequest`). -/
def translateOpenAIToGoogle {ν : Type} (flags : ServerFlags)
    (b : OAIBody ν) : GoogleRequest ν :=
  let systemMessages := b.messages.filter (fun m => m.role == "system")
  let systemInstruction :=
    if systemMessages.isEmpty then none
    else some [(⟨false,
      some (String.intercalate "\n"
        (systemMessages.map (fun m => jsStringOfContent m.content))),
      none⟩ : GPart)]
  let conversationMessages := b.messages.filter (fun m => !(m.role == "system"))
  let contents := conversationMessages.map (fun m =>
    (⟨oaiContentToParts m.content,
      if m.role == "assistant" then "model" else "user"⟩ : GContent))
  let extraBody := b.extra_body.getD {}
  let rawThinkingConfig :=
    (extraBody.google.bind ExtraGoogle.thinking_config)
      <|> (extraBody.google.bind ExtraGoogle.thinkingConfig)
      <|> extraBody.thinkingConfig <|> extraBody.thinking_config
      <|> b.thinkingConfig <|> b.thinking_config
  let thinkingConfig1 : Option (Option Bool) :=
    rawThinkingConfig.map resolveThinking
  let effort :=
    if truthyStr b.reasoning_effort then b.reasoning_effort
    else extraBody.reasoning_effort
  let thinkingConfig2 :=
    match thinkingConfig1 with
    | some tc => some tc
    | none => if truthyStr effort then some (some true) else none
  let thinkingConfig3 :=
    match thinkingConfig2 with
    | some tc => some tc
    | none => if flags.forceThinking then some (some true) else none
  let tools :=
    if flags.forceWebSearch || flags.forceUrlContext then
      let t0 : List GTool := []
      let t1 :=
        if flags.forceWebSearch && !(t0.contains .googleSearch) then
          t0 ++ [.googleSearch]
        else t0
      let t2 :=
        if flags.forceUrlContext && !(t1.contains .urlContext) then
          t1 ++ [.urlContext]
        else t1
      some t2
    else none
  { contents := contents
    systemInstruction := systemInstruction
    generationConfig :=
      ⟨b.max_tokens, b.stop, b.temperature, b.top_k, b.top_p, thinkingConfig3⟩
    tools := tools
    safetySettings :=
      [⟨"HARM_CATEGORY_HARASSMENT", "BLOCK_NONE"⟩,
       ⟨"HARM_CATEGORY_HATE_SPEECH", "BLOCK_NONE"⟩,
       ⟨"HARM_CATEGORY_SEXUALLY_EXPLICIT", "BLOCK_NONE"⟩,
       ⟨"HARM_CATEGORY_DANGEROUS_CONTENT", "BLOCK_NONE"⟩] }

/-! ### Native responses and their chat-dialect translation -/

structure UsageMetadata where
  candidatesTokenCount : Option Nat := none
  promptTokenCount : Option Nat := none
  totalTokenCount : Option Nat := none
deriving Repr, DecidableEq

structure PromptFeedback where
  blockReason : Option String := none
deriving Repr, DecidableEq

structure GCandidate where
  content : Option GContent := none
  finishReason : Option String := none
deriving Repr, DecidableEq

/-- A parsed native response / streaming frame. -/
structure GoogleResponse where
  candidates : List GCandidate := []
  usageMetadata : Option UsageMetadata := none
  promptFeedback : Option PromptFeedback := none
deriving Repr, DecidableEq

structure ChatMessage where
  content : String
  role : String
  reasoning_content : Option String := none
deriving Repr, DecidableEq

structure ChatChoice where
  finish_reason : String
  message : ChatMessage
deriving Repr, DecidableEq

structure ChatUsage where
  completion_tokens : Nat
  prompt_tokens : Nat
  total_tokens : Nat
deriving Repr, DecidableEq

/-- The chat-dialect non-stream response (minus `id`/`created`/`model`,
which come from the RNG/clock). -/
structure ChatResponse where
  choices : List ChatChoice
  usage : Option ChatUsage := none
deriving Repr, DecidableEq

/-- `![Generated Image](data:<mime>;base64,<data>)`. -/
def markdownImage (d : InlineData) : String :=
  "![Generated Image](data:" ++ d.mimeType ++ ";base64," ++ d.data ++ ")"

/-- `candidate.finishReason || "stop"`. -/
def finishOrStop : Option String → String
  | none => "stop"
  | some s => if s == "" then "stop" else s

/-- The accumulation loop of `convertGoogleToOpenAINonStream`:
`thought === true` parts feed `reasoning_content`, truthy `text` feeds
`content`, otherwise an `inlineData` part is rendered as a markdown image
reference. -/
def nonStreamAccumGo : List GPart → String → String → String × String
  | [], c, r => (c, r)
  | p :: rest, c, r =>
      if p.thought then nonStreamAccumGo rest c (r ++ p.text.getD "")
      else if truthyStr p.text then nonStreamAccumGo rest (c ++ p.text.getD "") r
      else
        match p.inlineData with
        | some d => nonStreamAccumGo rest (c ++ markdownImage d) r
        | none => nonStreamAccumGo rest c r

def nonStreamAccum (parts : List GPart) : String × String :=
  nonStreamAccumGo parts "" ""

/-- `FormatConverter.convertGoogleToOpenAINonStream(googleResponse)` (the
spec's `nativeResponseToChatResponse`). -/
def convertGoogleToOpenAINonStream (resp : GoogleResponse) : ChatResponse :=
  match resp.candidates.head? with
  | none =>
      { choices := [⟨"stop", ⟨"", "assistant", none⟩⟩], usage := none }
  | some candidate =>
      let acc :=
        match candidate.content with
        | some c => nonStreamAccum c.parts
        | none => ("", "")
      let message : ChatMessage :=
        { content := acc.1
          role := "assistant"
          reasoning_content := if acc.2 == "" then none else some acc.2 }
      { choices := [⟨finishOrStop candidate.finishReason, message⟩]
        usage := some
          ⟨(resp.usageMetadata.bind UsageMetadata.candidatesTokenCount).getD 0,
           (resp.usageMetadata.bind UsageMetadata.promptTokenCount).getD 0,
           (resp.usageMetadata.bind UsageMetadata.totalTokenCount).getD 0⟩ }

/-! ### Streaming chunk translation -/

structure ChatDelta where
  content : Option String := none
  reasoning_content : Option String := none
deriving Repr, DecidableEq

/-- One chat-dialect streaming chunk (minus `id`/`created`/`model`). -/
structure ChatStreamChunk where
  delta : ChatDelta
  finish_reason : Option String
deriving Repr, DecidableEq

/-- The accumulation loop of the streaming translator: returns
`(content, reasoning, sawThought)`. -/
def streamAccumGo : List GPart → String → String → Bool → String × String × Bool
  | [], c, r, saw => (c, r, saw)
  | p :: rest, c, r, saw =>
      if p.thought then streamAccumGo rest c (r ++ p.text.getD "") true
      else streamAccumGo rest (c ++ p.text.getD "") r saw

/-- The synthesized safety-block explanation text. -/
def safetyBlockText (pf : PromptFeedback) : String :=
  "[ProxySystem Error] Request blocked due to safety settings. Finish Reason: "
    ++ pf.blockReason.getD "undefined"

/-- `FormatConverter.translateGoogleToOpenAIStream` (the spec's
`nativeStreamChunkToChatChunk`), from the parsed frame onward: returns the
chunk to emit (or nothing) together with the updated
`streamState.inThought` flag. -/
def translateGoogleToOpenAIStreamCore (resp : GoogleResponse)
    (inThought0 : Bool) : Option ChatStreamChunk × Bool :=
  match resp.candidates.head? with
  | none =>
      match resp.promptFeedback with
      | some pf =>
          (some ⟨⟨some (safetyBlockText pf), none⟩, some "stop"⟩, inThought0)
      | none => (none, inThought0)
  | some candidate =>
      let acc :=
        match candidate.content with
        | some c =>
            match c.parts.find? (fun (p : GPart) => p.inlineData.isSome) with
            | some imagePart =>
                (markdownImage (imagePart.inlineData.getD ⟨"", ""⟩), "", false)
            | none => streamAccumGo c.parts "" "" false
        | none => ("", "", false)
      let delta : ChatDelta :=
        ⟨if acc.1 == "" then none else some acc.1,
         if acc.2.1 == "" then none else some acc.2.1⟩
      let inThought1 := inThought0 || acc.2.2
      if !truthyStr delta.content && !truthyStr delta.reasoning_content
          && !truthyStr candidate.finishReason then
        (none, inThought1)
      else
        (some ⟨delta,
          if truthyStr candidate.finishReason then candidate.finishReason
          else none⟩, inThought1)

/-! ### The frame's yielded texts (the quantities claim C9 talks about) -/

/-- The content text a parsed native streaming frame yields: the markdown
rendering of the first inline-media part if one exists, the concatenated
non-thought text otherwise, and the synthesized safety-block explanation
when there is no candidate but `promptFeedback` is present. -/
def frameContentText (resp : GoogleResponse) : String :=
  match resp.candidates.head? with
  | none =>
      match resp.promptFeedback with
      | some pf => safetyBlockText pf
      | none => ""
  | some candidate =>
      match candidate.content with
      | some c =>
          match c.parts.find? (fun (p : GPart) => p.inlineData.isSome) with
          | some imagePart => markdownImage (imagePart.inlineData.getD ⟨"", ""⟩)
          | none => (streamAccumGo c.parts "" "" false).1
      | none => ""

/-- The reasoning text a parsed native streaming frame yields (thought
parts; empty when an inline-media part short-circuits the loop). -/
def frameReasoningText (resp : GoogleResponse) : String :=
  match resp.candidates.head? with
  | none => ""
  | some candidate =>
      match candidate.content with
      | some c =>
          match c.parts.find? (fun (p : GPart) => p.inlineData.isSome) with
          | some _ => ""
          | none => (streamAccumGo c.parts "" "" false).2.1
      | none => ""

/-- The completion (finish) reason a parsed native streaming frame
yields; the safety-block synthesis carries `"stop"`. -/
def frameFinishReason (resp : GoogleResponse) : Option String :=
  match resp.candidates.head? with
  | none =>
      match resp.promptFeedback with
      | some _ => some "stop"
      | none => none
  | some candidate => candidate.finishReason

/-! ### Lemmas about the data-URL parser and the accumulators -/

theorem findBase64Split_append (u v : List Char) (hu : ∀ c ∈ u, c ≠ ';') :
    findBase64Split (u ++ (sepB64 ++ v)) = some (u, v) := by
  induction u with
  | nil =>
      show findBase64Split (sepB64 ++ v) = some ([], v)
      have hpre : sepB64.isPrefixOf (sepB64 ++ v) = true :=
        isPrefixOf_append_self sepB64 v
      rw [show sepB64 ++ v
        = ';' :: (['b', 'a', 's', 'e', '6', '4', ','] ++ v) from rfl]
      simp only [findBase64Split]
      rw [show (';' :: (['b', 'a', 's', 'e', '6', '4', ','] ++ v))
        = sepB64 ++ v from rfl, hpre]
      simp only [if_pos]
      rw [show (8 : Nat) = sepB64.length from rfl, List.drop_left]
  | cons c u' ih =>
      have hc : c ≠ ';' := hu c (List.mem_cons_self _ _)
      have hih := ih (fun d hd => hu d (List.mem_cons_of_mem _ hd))
      show findBase64Split (c :: (u' ++ (sepB64 ++ v))) = some (c :: u', v)
      have hpre : sepB64.isPrefixOf (c :: (u' ++ (sepB64 ++ v))) = false := by
        have hb : ((';' : Char) == c) = false :=
          beq_eq_false_iff_ne.mpr (Ne.symm hc)
        simp [sepB64, List.isPrefixOf, hb]
      simp only [findBase64Split, hpre, Bool.false_eq_true, if_neg,
        not_false_iff, hih]

theorem parseImageDataUrl_eq (mimeTail data : String)
    (hsemi : ∀ c ∈ mimeTail.data, c ≠ ';')
    (hnl1 : ∀ c ∈ mimeTail.data, c ≠ '\n')
    (hnl2 : ∀ c ∈ data.data, c ≠ '\n') :
    parseImageDataUrl ("data:image/" ++ mimeTail ++ ";base64," ++ data)
      = some ("image/" ++ mimeTail, data) := by
  obtain ⟨mt⟩ := mimeTail
  obtain ⟨dt⟩ := data
  have hdata : ("data:image/" ++ ⟨mt⟩ ++ ";base64," ++ (⟨dt⟩ : String)).data
      = "data:image/".data ++ (mt ++ (sepB64 ++ dt)) := by
    rw [String.data_append, String.data_append, String.data_append]
    simp only [List.append_assoc]
    rfl
  unfold parseImageDataUrl
  rw [hdata]
  have hpre := isPrefixOf_append_self "data:image/".data (mt ++ (sepB64 ++ dt))
  have hdrop : ("data:image/".data ++ (mt ++ (sepB64 ++ dt))).drop 11
      = mt ++ (sepB64 ++ dt) := by
    rw [show (11 : Nat) = ("data:image/".data).length from rfl, List.drop_left]
  have hall1 : mt.all (fun ch => !(ch == '\n')) = true := by
    rw [List.all_eq_true]
    intro ch hch
    simpa using hnl1 ch hch
  have hall2 : dt.all (fun ch => !(ch == '\n')) = true := by
    rw [List.all_eq_true]
    intro ch hch
    simpa using hnl2 ch hch
  simp only [hpre, if_true, hdrop, findBase64Split_append mt dt hsemi, hall1,
    hall2, Bool.and_self]
  rfl

theorem nonStreamAccumGo_init (l : List GPart) (c r : String) :
    nonStreamAccumGo l c r
      = (c ++ (nonStreamAccum l).1, r ++ (nonStreamAccum l).2) := by
  induction l generalizing c r with
  | nil => simp [nonStreamAccumGo, nonStreamAccum]
  | cons p rest ih =>
      show nonStreamAccumGo (p :: rest) c r = _
      rw [show nonStreamAccum (p :: rest) = nonStreamAccumGo (p :: rest) "" ""
        from rfl]
      by_cases hth : p.thought
      · simp only [nonStreamAccumGo, hth, if_pos]
        rw [ih, ih (r := "" ++ p.text.getD "")]
        simp [String.append_assoc]
      · by_cases htx : truthyStr p.text = true
        · simp only [nonStreamAccumGo, hth, Bool.false_eq_true, if_neg,
            not_false_iff, htx, if_pos]
          rw [ih, ih (c := "" ++ p.text.getD "")]
          simp [String.append_assoc]
        · cases hin : p.inlineData with
          | some d =>
              simp only [nonStreamAccumGo, hth, Bool.false_eq_true, if_neg,
                not_false_iff, htx, hin]
              rw [ih, ih (c := "" ++ markdownImage d)]
              simp [String.append_assoc]
          | none =>
              simp only [nonStreamAccumGo, hth, Bool.false_eq_true, if_neg,
                not_false_iff, htx, hin]
              rw [ih, ih (c := "") (r := "")]
              simp [String.empty_append]

theorem nonStreamAccumGo_split (l1 l2 : List GPart) (c r : String) :
    nonStreamAccumGo (l1 ++ l2) c r
      = nonStreamAccumGo l2 (nonStreamAccumGo l1 c r).1
          (nonStreamAccumGo l1 c r).2 := by
  induction l1 generalizing c r with
  | nil => rfl
  | cons p rest ih =>
      show nonStreamAccumGo (p :: (rest ++ l2)) c r = _
      by_cases hth : p.thought
      · simp only [nonStreamAccumGo, hth, if_pos]
        exact ih _ _
      · by_cases htx : truthyStr p.text = true
        · simp only [nonStreamAccumGo, hth, Bool.false_eq_true, if_neg,
            not_false_iff, htx, if_pos]
          exact ih _ _
        · cases hin : p.inlineData with
          | some d =>
              simp only [nonStreamAccumGo, hth, Bool.false_eq_true, if_neg,
                not_false_iff, htx, hin]
              exact ih _ _
          | none =>
              simp only [nonStreamAccumGo, hth, Bool.false_eq_true, if_neg,
                not_false_iff, htx, hin]
              exact ih _ _

theorem append_ne_empty_left (s t : String) (h : s.data ≠ []) :
    s ++ t ≠ "" := by
  intro he
  have h2 : (s ++ t).data = ("" : String).data := congrArg String.data he
  rw [String.data_append] at h2
  exact h (List.append_eq_nil.mp h2).1

theorem markdownImage_ne_empty (d : InlineData) : markdownImage d ≠ "" := by
  unfold markdownImage
  apply append_ne_empty_left
  rw [String.data_append, String.data_append, String.data_append]
  intro h
  have := (List.append_eq_nil.mp ((List.append_eq_nil.mp
    ((List.append_eq_nil.mp h).1)).1)).1
  revert this
  decide

theorem safetyBlockText_ne_empty (pf : PromptFeedback) :
    safetyBlockText pf ≠ "" := by
  unfold safetyBlockText
  apply append_ne_empty_left
  decide

theorem truthyStr_guard (s : String) :
    truthyStr (if s == "" then none else some s) = !(s == "") := by
  by_cases h : s = ""
  · simp [truthyStr, h]
  · simp [truthyStr, h]

/-! ### Claims about the Protocol Translator -/

/-- C8: for a chat-dialect request with a two-part user message (text plus
an inline image given as a base64 data URL), `translateOpenAIToGoogle`
produces a native request whose inline-media part carries the same mime
type and base64 payload; the hand-authored native response carrying that
inline image translates to a chat message whose content is exactly the
markdown image reference with the byte-identical payload; and for *any*
native response whose first candidate contains that inline-media part
(anywhere among its parts), the translated message content contains the
markdown image reference. -/
theorem C8_image_round_trip (flags : ServerFlags) (t mimeTail data : String)
    (hsemi : ∀ c ∈ mimeTail.data, c ≠ ';')
    (hnl1 : ∀ c ∈ mimeTail.data, c ≠ '\n')
    (hnl2 : ∀ c ∈ data.data, c ≠ '\n') :
    (translateOpenAIToGoogle (ν := Unit) flags
      { messages := [⟨"user", .parts [.text t,
          .imageUrl ("data:image/" ++ mimeTail ++ ";base64," ++ data)]⟩] }).contents
      = [⟨[⟨false, some t, none⟩,
          ⟨false, none, some ⟨"image/" ++ mimeTail, data⟩⟩], "user"⟩] ∧
    (convertGoogleToOpenAINonStream
        ⟨[⟨some ⟨[⟨false, none, some ⟨"image/" ++ mimeTail, data⟩⟩], "model"⟩,
          some "STOP"⟩], none, none⟩).choices
      = [⟨"STOP",
          ⟨"![Generated Image](data:" ++ ("image/" ++ mimeTail) ++ ";base64,"
            ++ data ++ ")", "assistant", none⟩⟩] ∧
    (∀ (preParts postParts : List GPart) (fr : Option String) (role : String)
        (restCands : List GCandidate) (um : Option UsageMetadata)
        (pf : Option PromptFeedback),
      ((convertGoogleToOpenAINonStream
        ⟨(⟨some ⟨preParts
            ++ (⟨false, none, some ⟨"image/" ++ mimeTail, data⟩⟩ : GPart)
            :: postParts, role⟩, fr⟩ : GCandidate) :: restCands, um, pf⟩).choices.head?.map
        (fun ch => strContainsSub ch.message.content
          (markdownImage ⟨"image/" ++ mimeTail, data⟩))) = some true) := by
  have hparse := parseImageDataUrl_eq mimeTail data hsemi hnl1 hnl2
  refine ⟨?_, ?_, ?_⟩
  · simp [translateOpenAIToGoogle, oaiContentToParts, oaiPartToGPart, hparse]
  · simp [convertGoogleToOpenAINonStream, nonStreamAccum, nonStreamAccumGo,
      truthyStr, finishOrStop, markdownImage, String.empty_append,
      String.append_assoc]
  · intro preParts postParts fr role restCands um pf
    have hstep : ∀ c r, nonStreamAccumGo
        ((⟨false, none, some ⟨"image/" ++ mimeTail, data⟩⟩ : GPart)
          :: postParts) c r
        = ((c ++ markdownImage ⟨"image/" ++ mimeTail, data⟩)
            ++ (nonStreamAccum postParts).1,
           r ++ (nonStreamAccum postParts).2) := by
      intro c r
      rw [show nonStreamAccumGo
        ((⟨false, none, some ⟨"image/" ++ mimeTail, data⟩⟩ : GPart)
          :: postParts) c r
        = nonStreamAccumGo postParts
            (c ++ markdownImage ⟨"image/" ++ mimeTail, data⟩) r from rfl]
      rw [nonStreamAccumGo_init]
    have hcontains : strContainsSub
        (((nonStreamAccumGo preParts "" "").1
          ++ markdownImage ⟨"image/" ++ mimeTail, data⟩)
          ++ (nonStreamAccum postParts).1)
        (markdownImage ⟨"image/" ++ mimeTail, data⟩) = true := by
      unfold strContainsSub
      rw [String.data_append, String.data_append, List.append_assoc]
      apply listContainsSub_of_append
      exact listContainsSub_self_append _ _
    simp only [convertGoogleToOpenAINonStream, List.head?_cons,
      Option.map_some']
    rw [show nonStreamAccum (preParts
      ++ (⟨false, none, some ⟨"image/" ++ mimeTail, data⟩⟩ : GPart)
      :: postParts)
      = nonStreamAccumGo (preParts
        ++ (⟨false, none, some ⟨"image/" ++ mimeTail, data⟩⟩ : GPart)
        :: postParts) "" "" from rfl]
    rw [nonStreamAccumGo_split, hstep]
    simpa using hcontains

/-- Witness for C8 at `mime = image/png`, payload `"AAAA"`, text `"hi"`. -/
theorem C8_image_round_trip_witness :
    ((∀ c ∈ ("png" : String).data, c ≠ ';') ∧
     (∀ c ∈ ("png" : String).data, c ≠ '\n') ∧
     (∀ c ∈ ("AAAA" : String).data, c ≠ '\n')) ∧
    (translateOpenAIToGoogle (ν := Unit) ⟨false, false, false⟩
      { messages := [⟨"user", .parts [.text "hi",
          .imageUrl ("data:image/" ++ "png" ++ ";base64," ++ "AAAA")]⟩] }).contents
      = [⟨[⟨false, some "hi", none⟩,
          ⟨false, none, some ⟨"image/" ++ "png", "AAAA"⟩⟩], "user"⟩] :=
  ⟨⟨by decide, by decide, by decide⟩,
    (C8_image_round_trip ⟨false, false, false⟩ "hi" "png" "AAAA"
      (by decide) (by decide) (by decide)).1⟩

/-- C9: a parsed native streaming frame translates to *no* chat-dialect
chunk exactly when it yields no content text, no reasoning text and no
truthy completion reason; every frame yielding at least one of those gets
a chunk.  (The raw-chunk preprocessing — empty strings, `"[DONE]"`,
unparseable JSON — happens before a frame exists and also returns
nothing.) -/
theorem C9_no_empty_chunk (resp : GoogleResponse) (st : Bool) :
    (translateGoogleToOpenAIStreamCore resp st).1 = none
      ↔ (frameContentText resp = "" ∧ frameReasoningText resp = ""
          ∧ truthyStr (frameFinishReason resp) = false) := by
  unfold translateGoogleToOpenAIStreamCore frameContentText frameReasoningText
    frameFinishReason
  cases hc : resp.candidates.head? with
  | none =>
      cases hpf : resp.promptFeedback with
      | none => simp [truthyStr]
      | some pf => simp [safetyBlockText_ne_empty pf, truthyStr]
  | some candidate =>
      cases hcc : candidate.content with
      | none =>
          cases hfr : candidate.finishReason with
          | none => simp [hcc, hfr, truthyStr]
          | some fs =>
              by_cases hfs : fs = "" <;> simp [hcc, hfr, truthyStr, hfs]
      | some c =>
          cases hfind : c.parts.find? (fun (p : GPart) => p.inlineData.isSome) with
          | some imagePart =>
              have hne : (markdownImage (imagePart.inlineData.getD ⟨"", ""⟩)
                  == "") = false :=
                beq_eq_false_iff_ne.mpr (markdownImage_ne_empty _)
              simp [hcc, hfind, truthyStr, hne, markdownImage_ne_empty]
          | none =>
              cases hfr : candidate.finishReason with
              | none =>
                  by_cases hC : (streamAccumGo c.parts "" "" false).1 = ""
                    <;> by_cases hR : (streamAccumGo c.parts "" "" false).2.1 = ""
                    <;> simp [hcc, hfind, hfr, truthyStr, hC, hR]
              | some fs =>
                  by_cases hfs : fs = ""
                    <;> by_cases hC : (streamAccumGo c.parts "" "" false).1 = ""
                    <;> by_cases hR : (streamAccumGo c.parts "" "" false).2.1 = ""
                    <;> simp [hcc, hfind, hfr, truthyStr, hC, hR, hfs]

end AIStudioToAPI
